import Mathlib

/-!
Shallow embedding of the powdergame renderer sources.

The mesh-builder side (createVertexIndices, readMarch) is modelled over ℚ,
standing in for the JS double-precision scalars. The camera and frame-loop
side (RenderState, the mousemove handler, the resource gate and the per-tick
draw) is modelled over ℝ because the pitch clamp bound is pi / 2.5.
Out-of-bounds typed-array reads, which yield undefined in JS, are modelled
with Option; the activity test `z > 0.0` is false on undefined, hence the
none branch skips the cell, exactly as the source does.
-/

/-- The field sampler from the source (readMarch): reads the flat scalar
buffer at `x + y*size + z*size*size`; an out-of-bounds read yields none. -/
def readMarch (sdf : List ℚ) (size x y z : ℕ) : Option ℚ :=
  let x_index := x
  let y_index := y * size
  let z_index := z * size * size
  let index := x_index + y_index + z_index
  sdf.get? index

/-- The fixed unit-square corner cycle from the source (triCornersCycle). -/
def triCornersCycle : List ℚ := [-1, -1, 1, -1, 1, 1, -1, 1]

/-- The fixed texture-coordinate cycle from the source (texCoordsCycle). -/
def texCoordsCycle : List ℚ := [0, 0, 1, 0, 1, 1, 0, 1]

/-- The four parallel output sequences of the mesh builder. -/
structure MeshData where
  texCoords : List ℚ
  vertexIndices : List ℕ
  centerOffsets : List ℚ
  triCorners : List ℚ
deriving DecidableEq

/-- The builder starts with four empty sequences. -/
def emptyMesh : MeshData := ⟨[], [], [], []⟩

/-- The corner entries pushed by the inner j-loop for one emitted quad. -/
def quadTriCorners : List ℚ :=
  (List.range 4).flatMap
    (fun j => [triCornersCycle.getD (j * 2) 0, triCornersCycle.getD (j * 2 + 1) 0])

/-- The texture-coordinate entries pushed by the inner j-loop for one
emitted quad. -/
def quadTexCoords : List ℚ :=
  (List.range 4).flatMap
    (fun j => [texCoordsCycle.getD (j * 2) 0, texCoordsCycle.getD (j * 2 + 1) 0])

/-- The center-offset entries pushed by the inner j-loop for one emitted
quad: four copies of (x/size, y/size, z/8). -/
def quadCenterOffsets (size x y : ℕ) (z : ℚ) : List ℚ :=
  (List.range 4).flatMap
    (fun _ => [(x : ℚ) / (size : ℚ), (y : ℚ) / (size : ℚ), z / 8])

/-- The six indices appended for one emitted quad, based at `4 * i`. -/
def quadIndices (i : ℕ) : List ℕ :=
  [0, 1, 2, 0, 2, 3].map (fun num => num + 4 * i)

/-- One iteration of the scan loop body of createVertexIndices. The counter
component of the accumulator is the variable `i` of the source: note that it
is incremented on every scanned cell, inside and outside the `z > 0` branch,
mirroring the placement of `i++` in the source. -/
def buildCell (sdf : List ℚ) (size x y : ℕ) (acc : MeshData × ℕ) : MeshData × ℕ :=
  match readMarch sdf size x y 0 with
  | some z =>
      if 0 < z then
        (⟨acc.1.texCoords ++ quadTexCoords,
          acc.1.vertexIndices ++ quadIndices acc.2,
          acc.1.centerOffsets ++ quadCenterOffsets size x y z,
          acc.1.triCorners ++ quadTriCorners⟩,
         acc.2 + 1)
      else (acc.1, acc.2 + 1)
  | none => (acc.1, acc.2 + 1)

/-- The scan order of the builder: `x` outer, `y` inner, both in [0, size). -/
def scanPairs (size : ℕ) : List (ℕ × ℕ) :=
  (List.range size).flatMap (fun x => (List.range size).map (fun y => (x, y)))

/-- The double loop of createVertexIndices with the grid size as a
parameter, returning the built mesh and the final counter value. -/
def createVertexIndicesAux (size : ℕ) (sdf : List ℚ) : MeshData × ℕ :=
  (scanPairs size).foldl (fun acc p => buildCell sdf size p.1 p.2 acc) (emptyMesh, 0)

/-- createVertexIndices from the source: the grid size is hardcoded to 64
(`let size = 64`); the numParticles argument is unused on the scanning
path, as in the source. -/
def createVertexIndices (numParticles : ℕ) (sdf : List ℚ) : MeshData :=
  (createVertexIndicesAux 64 sdf).1

/-- The activity test of the scan: the sampled value exists and is
strictly positive (`z > 0.0`; a JS undefined compares false). -/
def isActiveCell (sdf : List ℚ) (size x y : ℕ) : Bool :=
  match readMarch sdf size x y 0 with
  | some z => decide (0 < z)
  | none => false

/-- The scanned cells whose sampled value is strictly positive. -/
def activeCells (sdf : List ℚ) (size : ℕ) : List (ℕ × ℕ) :=
  (scanPairs size).filter (fun p => isActiveCell sdf size p.1 p.2)

/-- Componentwise concatenation of mesh data. -/
def meshAppend (a b : MeshData) : MeshData :=
  ⟨a.texCoords ++ b.texCoords, a.vertexIndices ++ b.vertexIndices,
   a.centerOffsets ++ b.centerOffsets, a.triCorners ++ b.triCorners⟩

/-- The contribution of the scanned cell (x, y) when the counter is at i:
one full quad when the sampled value is strictly positive, nothing
otherwise. -/
def cellMesh (sdf : List ℚ) (size x y i : ℕ) : MeshData :=
  match readMarch sdf size x y 0 with
  | some z =>
      if 0 < z then
        ⟨quadTexCoords, quadIndices i, quadCenterOffsets size x y z, quadTriCorners⟩
      else emptyMesh
  | none => emptyMesh

/-- The mesh obtained by concatenating the per-cell contributions of a list
of cells, the counter advancing by one per scanned cell. -/
def specMeshes (sdf : List ℚ) (size : ℕ) : List (ℕ × ℕ) → ℕ → MeshData
  | [], _ => emptyMesh
  | p :: rest, i =>
      meshAppend (cellMesh sdf size p.1 p.2 i) (specMeshes sdf size rest (i + 1))

theorem meshAppend_empty_left (a : MeshData) : meshAppend emptyMesh a = a := by
  cases a; simp [meshAppend, emptyMesh]

theorem meshAppend_empty_right (a : MeshData) : meshAppend a emptyMesh = a := by
  cases a; simp [meshAppend, emptyMesh]

theorem meshAppend_assoc (a b c : MeshData) :
    meshAppend (meshAppend a b) c = meshAppend a (meshAppend b c) := by
  cases a; cases b; cases c; simp [meshAppend]

theorem buildCell_eq (sdf : List ℚ) (size x y : ℕ) (m : MeshData) (i : ℕ) :
    buildCell sdf size x y (m, i) = (meshAppend m (cellMesh sdf size x y i), i + 1) := by
  cases m
  unfold buildCell cellMesh
  cases h : readMarch sdf size x y 0 with
  | none => simp [meshAppend_empty_right, meshAppend, emptyMesh]
  | some z =>
      by_cases hz : 0 < z <;> simp [hz, meshAppend_empty_right, meshAppend, emptyMesh]

theorem foldl_buildCell (sdf : List ℚ) (size : ℕ) (l : List (ℕ × ℕ)) :
    ∀ (m : MeshData) (i : ℕ),
      l.foldl (fun acc p => buildCell sdf size p.1 p.2 acc) (m, i)
        = (meshAppend m (specMeshes sdf size l i), i + l.length) := by
  induction l with
  | nil => intro m i; simp [specMeshes, meshAppend_empty_right]
  | cons p rest ih =>
      intro m i
      simp only [List.foldl_cons, buildCell_eq, List.length_cons, specMeshes]
      rw [ih, meshAppend_assoc]
      have harith : i + 1 + rest.length = i + (rest.length + 1) := by omega
      rw [harith]

theorem createVertexIndicesAux_eq (size : ℕ) (sdf : List ℚ) :
    createVertexIndicesAux size sdf
      = (specMeshes sdf size (scanPairs size) 0, (scanPairs size).length) := by
  unfold createVertexIndicesAux
  rw [foldl_buildCell, meshAppend_empty_left]
  simp

theorem quadTexCoords_length : quadTexCoords.length = 8 := rfl

theorem quadTriCorners_length : quadTriCorners.length = 8 := rfl

theorem quadIndices_length (i : ℕ) : (quadIndices i).length = 6 := rfl

theorem quadCenterOffsets_length (size x y : ℕ) (z : ℚ) :
    (quadCenterOffsets size x y z).length = 12 := rfl

theorem cellMesh_component_lengths (sdf : List ℚ) (size x y i : ℕ) :
    (cellMesh sdf size x y i).texCoords.length
        = (if isActiveCell sdf size x y then 8 else 0) ∧
    (cellMesh sdf size x y i).vertexIndices.length
        = (if isActiveCell sdf size x y then 6 else 0) ∧
    (cellMesh sdf size x y i).centerOffsets.length
        = (if isActiveCell sdf size x y then 12 else 0) ∧
    (cellMesh sdf size x y i).triCorners.length
        = (if isActiveCell sdf size x y then 8 else 0) := by
  unfold cellMesh isActiveCell
  cases h : readMarch sdf size x y 0 with
  | none => simp [emptyMesh]
  | some z =>
      by_cases hz : 0 < z <;>
        simp [hz, emptyMesh, quadTexCoords_length, quadIndices_length,
          quadCenterOffsets_length, quadTriCorners_length]

theorem specMeshes_component_lengths (sdf : List ℚ) (size : ℕ) (l : List (ℕ × ℕ)) :
    ∀ i : ℕ,
      (specMeshes sdf size l i).texCoords.length
          = 8 * (l.filter (fun p => isActiveCell sdf size p.1 p.2)).length ∧
      (specMeshes sdf size l i).vertexIndices.length
          = 6 * (l.filter (fun p => isActiveCell sdf size p.1 p.2)).length ∧
      (specMeshes sdf size l i).centerOffsets.length
          = 12 * (l.filter (fun p => isActiveCell sdf size p.1 p.2)).length ∧
      (specMeshes sdf size l i).triCorners.length
          = 8 * (l.filter (fun p => isActiveCell sdf size p.1 p.2)).length := by
  induction l with
  | nil => intro i; simp [specMeshes, emptyMesh]
  | cons p rest ih =>
      intro i
      obtain ⟨h1, h2, h3, h4⟩ := ih (i + 1)
      obtain ⟨c1, c2, c3, c4⟩ := cellMesh_component_lengths sdf size p.1 p.2 i
      by_cases hp : isActiveCell sdf size p.1 p.2 <;>
        simp [specMeshes, meshAppend, List.filter_cons, hp, h1, h2, h3, h4,
          c1, c2, c3, c4, Nat.mul_add, Nat.add_comm]

/-- C3: for every input scalar grid, the quads emitted by the grid-scanning
mesh builder are exactly one per scanned cell with sampled value strictly
positive: the index sequence has 6 entries per active cell and the
corner-offset, texture-coordinate and center-offset sequences have 8, 8 and
12 entries per active cell, so cells with value <= 0 contribute zero
entries to each of the four outputs. -/
theorem claim_C3_quads_equal_active_cells (numParticles : ℕ) (sdf : List ℚ) :
    (createVertexIndices numParticles sdf).vertexIndices.length
        = 6 * (activeCells sdf 64).length ∧
    (createVertexIndices numParticles sdf).triCorners.length
        = 8 * (activeCells sdf 64).length ∧
    (createVertexIndices numParticles sdf).texCoords.length
        = 8 * (activeCells sdf 64).length ∧
    (createVertexIndices numParticles sdf).centerOffsets.length
        = 12 * (activeCells sdf 64).length := by
  obtain ⟨h1, h2, h3, h4⟩ :=
    specMeshes_component_lengths sdf 64 (scanPairs 64) 0
  unfold createVertexIndices activeCells
  rw [createVertexIndicesAux_eq]
  exact ⟨h2, h4, h1, h3⟩

set_option maxRecDepth 200000 in
/-- C1: the claim states that the quad counter used as the index base is
incremented only when a quad is emitted, so that on the 2x2 scenario grid
(values (0,0)=1, (0,1)=-1, (1,0)=1, (1,1)=-1, scanned x outer / y inner)
two quads are emitted and the second is based at 4. The source instead
increments the counter on every scan position (the increment sits outside
the `z > 0` branch): on the 2x2 scenario the two emitted quads are based at
0 and at 8, and the shipped size-64 builder run on the analogous grid
(active cells (0,0) and (1,0)) bases the second quad at 4 * 64 = 256. -/
theorem claim_C1_quad_counter_on_scan_position :
    (createVertexIndicesAux 2 [1, 1, -1, -1]).1.vertexIndices
        = [0, 1, 2, 0, 2, 3, 8, 9, 10, 8, 10, 11] ∧
    (createVertexIndicesAux 2 [1, 1, -1, -1]).1.vertexIndices.length = 6 * 2 ∧
    (createVertexIndices 10500 [1, 1]).vertexIndices
        = [0, 1, 2, 0, 2, 3, 256, 257, 258, 256, 258, 259] := by decide

set_option maxRecDepth 200000 in
/-- C2: the claim states that every emitted index is strictly below
4 * emittedQuadCount. On the grid [1, 1, -1, -1] the size-64 builder emits
2 quads (cells (0,0) and (1,0)) but the index 259 appears in the output,
and 259 is not below 4 * 2: the skipped cells between the two active ones
advanced the index base. -/
theorem claim_C2_index_exceeds_quad_bound :
    (createVertexIndices 10500 [1, 1, -1, -1]).vertexIndices.length = 6 * 2 ∧
    (activeCells [1, 1, -1, -1] 64).length = 2 ∧
    259 ∈ (createVertexIndices 10500 [1, 1, -1, -1]).vertexIndices ∧
    ¬(259 < 4 * 2) := by decide

theorem quadTriCorners_eq_cycle : quadTriCorners = triCornersCycle := by decide

theorem quadTexCoords_eq_cycle : quadTexCoords = texCoordsCycle := by decide

theorem quadCenterOffsets_eq_replicate (size x y : ℕ) (z : ℚ) :
    quadCenterOffsets size x y z
      = (List.replicate 4 [(x : ℚ) / (size : ℚ), (y : ℚ) / (size : ℚ), z / 8]).flatten := rfl

/-- C8: the builder output is the concatenation of per-cell contributions
in scan order, and the contribution of every active cell (x, y) with
sampled value z > 0 consists of the 4 corner-offset vertices of the fixed
cycle [(-1,-1),(1,-1),(1,1),(-1,1)], the 4 texture-coordinate vertices of
the fixed cycle [(0,0),(1,0),(1,1),(0,1)], and 4 identical center-offset
vertices (x/64, y/64, z/8), the normalization constant being 8. -/
theorem claim_C8_active_cell_emission (numParticles x y : ℕ) (sdf : List ℚ) (z : ℚ)
    (hx : x < 64) (hy : y < 64)
    (hz : readMarch sdf 64 x y 0 = some z) (hzpos : 0 < z) :
    (x, y) ∈ scanPairs 64 ∧
    createVertexIndices numParticles sdf = specMeshes sdf 64 (scanPairs 64) 0 ∧
    ∀ i : ℕ,
      cellMesh sdf 64 x y i
        = ⟨texCoordsCycle, quadIndices i,
           (List.replicate 4 [(x : ℚ) / 64, (y : ℚ) / 64, z / 8]).flatten,
           triCornersCycle⟩ := by
  refine ⟨?_, ?_, ?_⟩
  · simp only [scanPairs, List.mem_flatMap, List.mem_map, List.mem_range]
    exact ⟨x, hx, y, hy, rfl⟩
  · unfold createVertexIndices
    rw [createVertexIndicesAux_eq]
  · intro i
    unfold cellMesh
    rw [hz]
    simp only [hzpos, if_true, quadTexCoords_eq_cycle, quadTriCorners_eq_cycle,
      quadCenterOffsets_eq_replicate]
    norm_num

theorem claim_C8_witness :
    (0 : ℕ) < 64 ∧ readMarch [(1 : ℚ)] 64 0 0 0 = some 1 ∧ (0 : ℚ) < 1 ∧
    ((0, 0) ∈ scanPairs 64 ∧
     createVertexIndices 10500 [(1 : ℚ)] = specMeshes [(1 : ℚ)] 64 (scanPairs 64) 0 ∧
     ∀ i : ℕ,
       cellMesh [(1 : ℚ)] 64 0 0 i
         = ⟨texCoordsCycle, quadIndices i,
            (List.replicate 4 [((0 : ℕ) : ℚ) / 64, ((0 : ℕ) : ℚ) / 64, (1 : ℚ) / 8]).flatten,
            triCornersCycle⟩) :=
  ⟨by decide, rfl, by norm_num,
   claim_C8_active_cell_emission 10500 0 0 [1] 1 (by decide) (by decide) rfl (by norm_num)⟩

/-- The render-state record of the indexed-triangles variant (render.ts),
with GPU handles as opaque naturals and scalar fields over ℝ. -/
structure RenderState where
  shader : ℕ
  viewUni : ℕ
  firePosUni : ℕ
  lifetimeAttrib : ℕ
  texCoordAttrib : ℕ
  triCornerAttrib : ℕ
  centerOffsetAttrib : ℕ
  velocityAttrib : ℕ
  redFirePos : ℝ × ℝ × ℝ
  xRotation : ℝ
  yRotation : ℝ
  imageIsLoaded : Bool
  numParticles : ℕ
  lastMouseX : ℝ
  lastMouseY : ℝ

/-- The state literal built at startup by render(): rotations and last
pointer coordinates zero, gate not loaded, numParticles = 200, red fire
position at the origin; the GPU handles come from the rasterization
context and are parameters here. -/
def initRenderState (shader viewUni firePosUni lifetimeAttrib texCoordAttrib
    triCornerAttrib centerOffsetAttrib velocityAttrib : ℕ) : RenderState :=
  { shader := shader, viewUni := viewUni, firePosUni := firePosUni,
    lifetimeAttrib := lifetimeAttrib, texCoordAttrib := texCoordAttrib,
    triCornerAttrib := triCornerAttrib, centerOffsetAttrib := centerOffsetAttrib,
    velocityAttrib := velocityAttrib,
    redFirePos := (0, 0, 0), xRotation := 0, yRotation := 0,
    imageIsLoaded := false, numParticles := 200,
    lastMouseX := 0, lastMouseY := 0 }

/-- The mousemove handler of render(): accumulate the pointer deltas into
the rotations, clamp xRotation with min then max against pi / 2.5, and
store the event coordinates. -/
noncomputable def onMouseMove (pageX pageY : ℝ) (s : RenderState) : RenderState :=
  let xRot0 := s.xRotation + (pageY - s.lastMouseY) / 50
  let yRot := s.yRotation - (pageX - s.lastMouseX) / 50
  let xRot1 := min xRot0 (Real.pi / 2.5)
  let xRot2 := max xRot1 (-(Real.pi / 2.5))
  { s with xRotation := xRot2, yRotation := yRot,
           lastMouseX := pageX, lastMouseY := pageY }

/-- The rasterization commands the frame loop can issue, with the data
relevant to the claims as payload. -/
inductive GLOp where
  | clear
  | useProgram (program : ℕ)
  | uniformMatrix4fv (loc : ℕ) (xRotation yRotation : ℝ)
  | uniform3fv (loc : ℕ)
  | pixelStorei
  | bindTexture
  | texImage2D
  | texParameteri
  | drawElementsTriangles (count : ℕ)
  | drawArraysPoints (count : ℕ)

/-- Whether a command is a draw call. -/
def isDrawCall : GLOp → Bool
  | GLOp.drawElementsTriangles _ => true
  | GLOp.drawArraysPoints _ => true
  | _ => false

/-- Number of draw calls in a command sequence. -/
def numDraws (ops : List GLOp) : ℕ := (ops.filter isDrawCall).length

/-- The vertex counts of the draw calls in a command sequence, in order. -/
def drawCallCounts (ops : List GLOp) : List ℕ :=
  ops.filterMap (fun op =>
    match op with
    | GLOp.drawElementsTriangles n => some n
    | GLOp.drawArraysPoints n => some n
    | _ => none)

/-- One tick of the draw() loop of render.ts: when the gate is open it
clears, binds the program, uploads the view matrix (a function of the two
rotations) and the fire position, and issues the single indexed-triangles
draw call over numParticles * 6 indices; when the gate is closed it issues
nothing. -/
def drawOps (s : RenderState) : List GLOp :=
  if s.imageIsLoaded then
    [GLOp.clear, GLOp.useProgram s.shader,
     GLOp.uniformMatrix4fv s.viewUni s.xRotation s.yRotation,
     GLOp.uniform3fv s.firePosUni,
     GLOp.drawElementsTriangles (s.numParticles * 6)]
  else []

/-- The fireAtlas onload callback: uploads the decoded image as a texture
and opens the gate; it touches no other state field. -/
def onImageLoad (s : RenderState) : RenderState := { s with imageIsLoaded := true }

/-- The rasterization commands of the onload callback (texture upload
only, no draw call). -/
def onLoadOps : List GLOp :=
  [GLOp.pixelStorei, GLOp.bindTexture, GLOp.texImage2D,
   GLOp.texParameteri, GLOp.texParameteri]

/-- The three external events that reach the render state: a scheduler
tick, the asset-load completion callback, and a pointer-move event. -/
inductive REvent where
  | tick
  | load
  | mouseMove (pageX pageY : ℝ)

/-- One event step: the successor state and the commands issued. -/
noncomputable def stepEvent : REvent → RenderState → RenderState × List GLOp
  | REvent.tick, s => (s, drawOps s)
  | REvent.load, s => (onImageLoad s, onLoadOps)
  | REvent.mouseMove px py, s => (onMouseMove px py s, [])

/-- Run a sequence of events, accumulating the issued commands. -/
noncomputable def runTrace : List REvent → RenderState → RenderState × List GLOp
  | [], s => (s, [])
  | e :: rest, s =>
      let first := stepEvent e s
      let next := runTrace rest first.1
      (next.1, first.2 ++ next.2)

/-- Apply a sequence of pointer-move events. -/
noncomputable def applyMoves (moves : List (ℝ × ℝ)) (s : RenderState) : RenderState :=
  moves.foldl (fun acc m => onMouseMove m.1 m.2 acc) s

theorem pi_div_bound_nonneg : (0 : ℝ) ≤ Real.pi / 2.5 := by positivity

theorem onMouseMove_xRotation_mem (pageX pageY : ℝ) (s : RenderState) :
    (onMouseMove pageX pageY s).xRotation
      ∈ Set.Icc (-(Real.pi / 2.5)) (Real.pi / 2.5) := by
  have hpi := pi_div_bound_nonneg
  refine ⟨le_max_right _ _, max_le (min_le_right _ _) (by linarith)⟩

/-- C6: the mousemove handler adds (pageY - lastMouseY)/50 to xRotation and
then clamps it into [-pi/2.5, pi/2.5] (min with the upper bound, then max
with the lower bound), subtracts (pageX - lastMouseX)/50 from yRotation
with no clamp, and stores the event coordinates as the new last pointer
position. -/
theorem claim_C6_mousemove_update (s : RenderState) (pageX pageY : ℝ) :
    (onMouseMove pageX pageY s).xRotation
        = max (min (s.xRotation + (pageY - s.lastMouseY) / 50) (Real.pi / 2.5))
            (-(Real.pi / 2.5)) ∧
    (onMouseMove pageX pageY s).xRotation
        ∈ Set.Icc (-(Real.pi / 2.5)) (Real.pi / 2.5) ∧
    (onMouseMove pageX pageY s).yRotation
        = s.yRotation - (pageX - s.lastMouseX) / 50 ∧
    (onMouseMove pageX pageY s).lastMouseX = pageX ∧
    (onMouseMove pageX pageY s).lastMouseY = pageY :=
  ⟨rfl, onMouseMove_xRotation_mem pageX pageY s, rfl, rfl, rfl⟩

/-- C10: a pointer-move event mutates only xRotation, yRotation,
lastMouseX and lastMouseY; the shader handle, the uniform locations, the
attribute locations, the resource-gate flag, the particle count and the
fire position are untouched. -/
theorem claim_C10_mousemove_touches_only_camera (s : RenderState) (pageX pageY : ℝ) :
    (onMouseMove pageX pageY s).shader = s.shader ∧
    (onMouseMove pageX pageY s).viewUni = s.viewUni ∧
    (onMouseMove pageX pageY s).firePosUni = s.firePosUni ∧
    (onMouseMove pageX pageY s).lifetimeAttrib = s.lifetimeAttrib ∧
    (onMouseMove pageX pageY s).texCoordAttrib = s.texCoordAttrib ∧
    (onMouseMove pageX pageY s).triCornerAttrib = s.triCornerAttrib ∧
    (onMouseMove pageX pageY s).centerOffsetAttrib = s.centerOffsetAttrib ∧
    (onMouseMove pageX pageY s).velocityAttrib = s.velocityAttrib ∧
    (onMouseMove pageX pageY s).imageIsLoaded = s.imageIsLoaded ∧
    (onMouseMove pageX pageY s).numParticles = s.numParticles ∧
    (onMouseMove pageX pageY s).redFirePos = s.redFirePos :=
  ⟨rfl, rfl, rfl, rfl, rfl, rfl, rfl, rfl, rfl, rfl, rfl⟩

theorem applyMoves_xRotation_mem (moves : List (ℝ × ℝ)) :
    ∀ s : RenderState,
      s.xRotation ∈ Set.Icc (-(Real.pi / 2.5)) (Real.pi / 2.5) →
      (applyMoves moves s).xRotation ∈ Set.Icc (-(Real.pi / 2.5)) (Real.pi / 2.5) := by
  induction moves with
  | nil => intro s h; exact h
  | cons m rest ih =>
      intro s _
      exact ih (onMouseMove m.1 m.2 s) (onMouseMove_xRotation_mem m.1 m.2 s)

/-- C7: starting from the initial camera state, xRotation stays in
[-pi/2.5, pi/2.5] after every sequence of pointer-move events, while
yRotation is unbounded: for every bound there is an event sequence pushing
yRotation above it. -/
theorem claim_C7_pitch_clamped_yaw_unbounded (h1 h2 h3 h4 h5 h6 h7 h8 : ℕ) :
    (∀ moves : List (ℝ × ℝ),
        (applyMoves moves (initRenderState h1 h2 h3 h4 h5 h6 h7 h8)).xRotation
          ∈ Set.Icc (-(Real.pi / 2.5)) (Real.pi / 2.5)) ∧
    (∀ B : ℝ, ∃ moves : List (ℝ × ℝ),
        B < (applyMoves moves (initRenderState h1 h2 h3 h4 h5 h6 h7 h8)).yRotation) := by
  constructor
  · intro moves
    apply applyMoves_xRotation_mem
    have hpi := pi_div_bound_nonneg
    exact ⟨by simpa [initRenderState] using by linarith, by simpa [initRenderState] using hpi⟩
  · intro B
    refine ⟨[(-(50 * (B + 1)), 0)], ?_⟩
    have key : (applyMoves [(-(50 * (B + 1)), 0)]
        (initRenderState h1 h2 h3 h4 h5 h6 h7 h8)).yRotation
          = 0 - ((-(50 * (B + 1))) - 0) / 50 := rfl
    rw [key]
    have : (0 : ℝ) - ((-(50 * (B + 1))) - 0) / 50 = B + 1 := by ring
    rw [this]
    linarith

theorem numDraws_append (a b : List GLOp) :
    numDraws (a ++ b) = numDraws a + numDraws b := by
  simp [numDraws, List.filter_append]

theorem stepEvent_loaded_mono (e : REvent) (s : RenderState)
    (h : s.imageIsLoaded = true) : ((stepEvent e s).1).imageIsLoaded = true := by
  cases e <;> simp [stepEvent, onImageLoad, onMouseMove, h]

theorem runTrace_loaded_mono (l : List REvent) :
    ∀ s : RenderState, s.imageIsLoaded = true →
      ((runTrace l s).1).imageIsLoaded = true := by
  induction l with
  | nil => intro s h; exact h
  | cons e rest ih =>
      intro s h
      exact ih (stepEvent e s).1 (stepEvent_loaded_mono e s h)

theorem runTrace_load_mem (l : List REvent) :
    ∀ s : RenderState, REvent.load ∈ l →
      ((runTrace l s).1).imageIsLoaded = true := by
  induction l with
  | nil => intro s h; simp at h
  | cons e rest ih =>
      intro s h
      rcases List.mem_cons.mp h with he | hrest
      · have : ((stepEvent e s).1).imageIsLoaded = true := by
          rw [← he]; simp [stepEvent, onImageLoad]
        exact runTrace_loaded_mono rest (stepEvent e s).1 this
      · exact ih (stepEvent e s).1 hrest

theorem runTrace_no_load (l : List REvent) :
    ∀ s : RenderState, REvent.load ∉ l → s.imageIsLoaded = false →
      ((runTrace l s).1).imageIsLoaded = false ∧ numDraws (runTrace l s).2 = 0 := by
  induction l with
  | nil => intro s _ h; exact ⟨h, rfl⟩
  | cons e rest ih =>
      intro s hmem h
      have hne : e ≠ REvent.load := fun he => hmem (by rw [he]; exact List.mem_cons_self _ _)
      have hrest : REvent.load ∉ rest := fun hr => hmem (List.mem_cons_of_mem _ hr)
      have hstate : ((stepEvent e s).1).imageIsLoaded = false ∧ numDraws (stepEvent e s).2 = 0 := by
        cases e with
        | tick => exact ⟨h, by simp [stepEvent, drawOps, h, numDraws]⟩
        | load => exact absurd rfl hne
        | mouseMove px py => exact ⟨by simp [stepEvent, onMouseMove, h], by simp [stepEvent, numDraws]⟩
      obtain ⟨hs1, hs2⟩ := hstate
      obtain ⟨hr1, hr2⟩ := ih (stepEvent e s).1 hrest hs1
      refine ⟨hr1, ?_⟩
      show numDraws ((stepEvent e s).2 ++ (runTrace rest (stepEvent e s).1).2) = 0
      rw [numDraws_append, hs2, hr2]

/-- C5: the resource gate starts closed (imageIsLoaded = false), is opened
only by the asset-load completion callback and never reverts; a trace
without the load event issues zero draw calls, and a tick run after any
trace containing the load event issues exactly one draw call. -/
theorem claim_C5_gate_temporal (h1 h2 h3 h4 h5 h6 h7 h8 : ℕ) :
    (initRenderState h1 h2 h3 h4 h5 h6 h7 h8).imageIsLoaded = false ∧
    (∀ (s : RenderState) (e : REvent), s.imageIsLoaded = true →
        ((stepEvent e s).1).imageIsLoaded = true) ∧
    (∀ (s : RenderState) (e : REvent), ((stepEvent e s).1).imageIsLoaded = true →
        s.imageIsLoaded = true ∨ e = REvent.load) ∧
    (∀ l : List REvent, REvent.load ∉ l →
        numDraws (runTrace l (initRenderState h1 h2 h3 h4 h5 h6 h7 h8)).2 = 0) ∧
    (∀ l : List REvent, REvent.load ∈ l →
        numDraws
          (stepEvent REvent.tick
            (runTrace l (initRenderState h1 h2 h3 h4 h5 h6 h7 h8)).1).2 = 1) := by
  refine ⟨rfl, ?_, ?_, ?_, ?_⟩
  · intro s e h
    exact stepEvent_loaded_mono e s h
  · intro s e h
    cases e with
    | tick => exact Or.inl h
    | load => exact Or.inr rfl
    | mouseMove px py => exact Or.inl (by simpa [stepEvent, onMouseMove] using h)
  · intro l hmem
    exact (runTrace_no_load l _ hmem rfl).2
  · intro l hmem
    have hl := runTrace_load_mem l (initRenderState h1 h2 h3 h4 h5 h6 h7 h8) hmem
    simp [stepEvent, drawOps, hl, numDraws, isDrawCall]

theorem claim_C5_witness :
    numDraws (runTrace [REvent.tick] (initRenderState 0 0 0 0 0 0 0 0)).2 = 0 ∧
    numDraws
      (stepEvent REvent.tick
        (runTrace [REvent.load] (initRenderState 0 0 0 0 0 0 0 0)).1).2 = 1 :=
  ⟨(claim_C5_gate_temporal 0 0 0 0 0 0 0 0).2.2.2.1 [REvent.tick] (by simp),
   (claim_C5_gate_temporal 0 0 0 0 0 0 0 0).2.2.2.2 [REvent.load] (by simp)⟩

/-- C9: the field sampler reads the flat buffer at the fixed flat index
x + y*size + z*size*size, and for every in-bounds triple against a buffer
whose length is the product of the declared dimensions the read succeeds.
The sampler is a pure function of the buffer and the indices: it is
embedded as such because the source performs a single array read and
touches no other state. -/
theorem claim_C9_sampler_index_arithmetic (sdf : List ℚ) (size x y z : ℕ)
    (hx : x < size) (hy : y < size) (hz : z < size)
    (hlen : sdf.length = size * size * size) :
    readMarch sdf size x y z = sdf.get? (x + y * size + z * size * size) ∧
    (readMarch sdf size x y z).isSome = true := by
  refine ⟨rfl, ?_⟩
  have hidx : x + y * size + z * size * size < sdf.length := by
    rw [hlen]
    have h2 : (y + 1) * size ≤ size * size := mul_le_mul_right' hy size
    have h3 : (z + 1) * (size * size) ≤ size * (size * size) :=
      mul_le_mul_right' hz (size * size)
    nlinarith [h2, h3, hx]
  show (sdf.get? (x + y * size + z * size * size)).isSome = true
  rw [List.get?_eq_getElem?]
  simp only [Option.isSome_iff_exists]
  exact ⟨sdf[x + y * size + z * size * size],
    (List.getElem?_eq_some_iff).mpr ⟨hidx, rfl⟩⟩

theorem claim_C9_witness :
    (0 : ℕ) < 1 ∧ ([(5 : ℚ)].length = 1 * 1 * 1) ∧
    (readMarch [(5 : ℚ)] 1 0 0 0 = [(5 : ℚ)].get? (0 + 0 * 1 + 0 * 1 * 1) ∧
     (readMarch [(5 : ℚ)] 1 0 0 0).isSome = true) :=
  ⟨by decide, rfl,
   claim_C9_sampler_index_arithmetic [(5 : ℚ)] 1 0 0 0
     (by decide) (by decide) (by decide) rfl⟩

/-- The render-state record of the point-sprite variant (the unnamed
module with the gl_PointSize shader): same camera and gate fields, plus
the sampled field and its texture handle. -/
structure P1RenderState where
  sdf : List ℚ
  sdfTexture : ℕ
  shader : ℕ
  viewUni : ℕ
  sdfUni : ℕ
  firePosUni : ℕ
  texCoordAttrib : ℕ
  triCornerAttrib : ℕ
  centerOffsetAttrib : ℕ
  redFirePos : ℝ × ℝ × ℝ
  xRotation : ℝ
  yRotation : ℝ
  imageIsLoaded : Bool
  numParticles : ℕ
  lastMouseX : ℝ
  lastMouseY : ℝ

/-- The state literal built by render() in the point-sprite variant:
numParticles is the fixed constant 10500, the gate starts closed, the
rotations and last pointer coordinates are zero. -/
def mkP1State (sdf : List ℚ)
    (sdfTexture shader viewUni sdfUni firePosUni texCoordAttrib
      triCornerAttrib centerOffsetAttrib : ℕ) : P1RenderState :=
  { sdf := sdf, sdfTexture := sdfTexture, shader := shader,
    viewUni := viewUni, sdfUni := sdfUni, firePosUni := firePosUni,
    texCoordAttrib := texCoordAttrib, triCornerAttrib := triCornerAttrib,
    centerOffsetAttrib := centerOffsetAttrib,
    redFirePos := (0, 0, 0), xRotation := 0, yRotation := 0,
    imageIsLoaded := false, numParticles := 10500,
    lastMouseX := 0, lastMouseY := 0 }

/-- The fireAtlas onload callback of the point-sprite variant: opens the
gate. -/
def p1OnImageLoad (s : P1RenderState) : P1RenderState := { s with imageIsLoaded := true }

/-- One tick of the draw() loop of the point-sprite variant: when the gate
is open it clears, binds the program, uploads the view matrix and fire
position, and issues the single gl.POINTS drawArrays call whose vertex
count is the numParticles field of the state; the indexed drawElements
call of the source is commented out. -/
def p1DrawOps (s : P1RenderState) : List GLOp :=
  if s.imageIsLoaded then
    [GLOp.clear, GLOp.useProgram s.shader,
     GLOp.uniformMatrix4fv s.viewUni s.xRotation s.yRotation,
     GLOp.uniform3fv s.firePosUni,
     GLOp.drawArraysPoints s.numParticles]
  else []

set_option maxRecDepth 200000 in
/-- C4 counterexample: on the empty grid the point-sprite variant has zero
active cells, yet the tick after the gate opens issues its one POINTS draw
call with vertex count 10500, the fixed numParticles constant, not the
active-cell count. -/
theorem claim_C4_counterexample :
    drawCallCounts (p1DrawOps (p1OnImageLoad (mkP1State [] 0 0 0 0 0 0 0 0))) = [10500] ∧
    (activeCells [] 64).length = 0 ∧
    (10500 : ℕ) ≠ 0 := by
  refine ⟨rfl, by decide, by decide⟩

/-- C4 amended: each tick of the point-sprite variant that draws issues
exactly one draw call, it is a point-primitive draw, and its vertex count
is the numParticles field of the state, which render() fixes at 10500
regardless of the grid contents. -/
theorem claim_C4_points_draw_fixed_count (s : P1RenderState)
    (h : s.imageIsLoaded = true) :
    numDraws (p1DrawOps s) = 1 ∧
    drawCallCounts (p1DrawOps s) = [s.numParticles] ∧
    (p1DrawOps s).filterMap
        (fun op => match op with
          | GLOp.drawArraysPoints n => some n
          | _ => none) = [s.numParticles] ∧
    (∀ (sdf : List ℚ) (a b c d e f g k : ℕ),
        (mkP1State sdf a b c d e f g k).numParticles = 10500) := by
  refine ⟨?_, ?_, ?_, fun _ _ _ _ _ _ _ _ _ => rfl⟩ <;>
    simp [p1DrawOps, h, numDraws, drawCallCounts, isDrawCall]

theorem claim_C4_witness :
    (p1OnImageLoad (mkP1State [] 0 0 0 0 0 0 0 0)).imageIsLoaded = true ∧
    (numDraws (p1DrawOps (p1OnImageLoad (mkP1State [] 0 0 0 0 0 0 0 0))) = 1 ∧
     drawCallCounts (p1DrawOps (p1OnImageLoad (mkP1State [] 0 0 0 0 0 0 0 0)))
        = [(p1OnImageLoad (mkP1State [] 0 0 0 0 0 0 0 0)).numParticles] ∧
     (p1DrawOps (p1OnImageLoad (mkP1State [] 0 0 0 0 0 0 0 0))).filterMap
        (fun op => match op with
          | GLOp.drawArraysPoints n => some n
          | _ => none)
        = [(p1OnImageLoad (mkP1State [] 0 0 0 0 0 0 0 0)).numParticles] ∧
     (∀ (sdf : List ℚ) (a b c d e f g k : ℕ),
        (mkP1State sdf a b c d e f g k).numParticles = 10500)) :=
  ⟨rfl, claim_C4_points_draw_fixed_count (p1OnImageLoad (mkP1State [] 0 0 0 0 0 0 0 0)) rfl⟩
